import Mathlib

/-!
Verification development for the ReLoRA distributed-training driver
(`torchrun_main.py`).  The file shallowly embeds the parts of the program the
properties below speak about:

* the training-loop state machine of `main` (lines 728-863): per-batch counter
  bookkeeping, the gradient-accumulation update boundary, the termination
  check, the nan-loss assertion, and the periodic merge-and-reset trigger;
* the reset-trigger expression (lines 785-788), including the `TypeError`
  Python raises when `args.relora` is `None` but `can_reset` is truthy;
* the startup batch-size arithmetic checks (lines 358-365);
* the iteration-count logic of `evaluate_model` (lines 133-146);
* the checkpoint save/resume round trip (lines 763-782, 527-545, 668-681);
* the checkpoint directory naming of the periodic and the end-of-training
  saves (lines 763-782 and 873-892).

Machine integers in the source are Python ints (arbitrary precision), so they
are embedded as `Nat`/`Int` directly; fallible code is embedded in
`Except String`.
-/

/-- Classification of a scalar float value (a loss).  The training loop
inspects the loss only through `torch.isnan`, so the embedding records the
IEEE class of the value, with an exact rational payload for finite values. -/
inductive FVal where
  | finite (q : ℚ)
  | posInf
  | negInf
  | nan
deriving DecidableEq

/-- Embedding of `torch.isnan` applied to a scalar value: true exactly on NaN,
false on finite and infinite values. -/
def torch_isnan : FVal → Bool
  | .nan => true
  | _ => false

/-- True when the value is finite, i.e. neither infinite nor NaN. -/
def is_finite_fval : FVal → Bool
  | .finite _ => true
  | _ => false

/-- Embedding of the nan check at the end of `evaluate_model`
(torchrun_main.py lines 161-163): `if torch.isnan(ddp_loss_info[0]): raise
RuntimeError(...)`.  The argument is the accumulated loss sum. -/
def eval_nan_check (ddp_loss_sum : FVal) : Except String Unit :=
  if torch_isnan ddp_loss_sum then
    .error "RuntimeError: got nan loss"
  else
    .ok ()

/-- The run-configuration fields of `args` that the training loop consumes.
`relora` is `Option Nat` because `args.relora` defaults to `None` (relora
disabled); `resume_from` records whether `args.resume_from` is set.  The
startup checks (lines 358-365, modelled below) guarantee
`gradient_accumulation ≥ 1` on every accepted configuration. -/
structure ReloraConfig where
  num_training_steps : Nat
  gradient_accumulation : Nat
  relora : Option Nat
  resume_from : Bool
deriving DecidableEq

/-- The mutable counters of the training loop (torchrun_main.py lines 476-480,
721 and the loop body).  `losses` is a ghost counter of the micro-steps whose
loss was actually computed (line 742) and `resets_at` is a ghost log of the
update steps at which the merge-and-reset fired (lines 788-819); both are
write-only instrumentation and feed back into no branch. -/
structure LoopState where
  global_step : Nat
  local_step : Nat
  update_step : Nat
  tokens_seen : Nat
  tokens_seen_before : Nat
  n_lora_restarts : Nat
  losses : Nat
  stopped : Bool
  resets_at : List Nat
deriving DecidableEq

/-- The fresh-run initial state (lines 476-480 initialise the counters to zero,
line 721 sets `local_step = 0`). -/
def initZero : LoopState :=
  { global_step := 0, local_step := 0, update_step := 0, tokens_seen := 0,
    tokens_seen_before := 0, n_lora_restarts := 0, losses := 0,
    stopped := false, resets_at := [] }

/-- Embedding of the reset-trigger expression (lines 785-788):

    can_reset = args.resume_from is not None \
        or (args.relora is not None and local_step * args.gradient_accumulation > args.relora)
    if can_reset and update_step % args.relora == 1: ...

Both Python `and`/`or` short-circuit, so `update_step % args.relora` is only
evaluated when `can_reset` is truthy; if `args.relora` is `None` at that point
Python raises `TypeError`, which the embedding returns as `.error`. -/
def relora_trigger (resume_from : Bool) (relora : Option Nat)
    (local_step gradient_accumulation update_step : Nat) : Except String Bool :=
  let can_reset := resume_from ||
    (relora.isSome && decide (relora.getD 0 < local_step * gradient_accumulation))
  if can_reset then
    match relora with
    | none => .error "TypeError: unsupported operand type(s) for %: int and NoneType"
    | some r => .ok (decide (update_step % r = 1))
  else
    .ok false

/-- One iteration of `for batch in train_loader` (lines 728-863).  In source
order: increment `global_step` and `local_step` (729-730); stop when
`update_step >= args.num_training_steps` (732-735); accumulate
`tokens_seen += batch.numel() * world_size` (738) and compute the loss (742,
counted by the ghost field `losses`); `assert not torch.isnan(loss)` (748);
skip the rest unless `global_step % gradient_accumulation == 0` (752-753);
otherwise perform the update `update_step += 1` (757-760), evaluate the reset
trigger and on firing increment `n_lora_restarts` (785-819, logged in
`resets_at`), and finally set `tokens_seen_before = tokens_seen` (841).  The
periodic save (763-782), the evaluation call (824-837) and the metric logging
mutate none of these counters and are modelled separately. -/
def microStep (cfg : ReloraConfig) (tokens_per_batch world_size : Nat)
    (loss : FVal) (s : LoopState) : Except String LoopState :=
  let s1 : LoopState :=
    { s with global_step := s.global_step + 1, local_step := s.local_step + 1 }
  if cfg.num_training_steps ≤ s1.update_step then
    .ok { s1 with stopped := true }
  else
    let s2 : LoopState :=
      { s1 with tokens_seen := s1.tokens_seen + tokens_per_batch * world_size,
                losses := s1.losses + 1 }
    if torch_isnan loss then
      .error "AssertionError: Loss is nan"
    else if s2.global_step % cfg.gradient_accumulation ≠ 0 then
      .ok s2
    else
      let s3 : LoopState := { s2 with update_step := s2.update_step + 1 }
      match relora_trigger cfg.resume_from cfg.relora s3.local_step
          cfg.gradient_accumulation s3.update_step with
      | .error e => .error e
      | .ok fired =>
        let s4 : LoopState :=
          if fired then
            { s3 with n_lora_restarts := s3.n_lora_restarts + 1,
                      resets_at := s3.resets_at ++ [s3.update_step] }
          else s3
        .ok { s4 with tokens_seen_before := s4.tokens_seen }

/-- Run the training loop over at most `fuel` incoming batches, each carrying
`tokens_per_batch` tokens and producing a loss of class `loss`.  Returning with
`fuel = 0` models the data source running dry (the `for`-`else` branch at
lines 864-865); once `stopped` is set the loop has executed `break`. -/
def runLoop (cfg : ReloraConfig) (tokens_per_batch world_size : Nat)
    (loss : FVal) : Nat → LoopState → Except String LoopState
  | 0, s => .ok s
  | fuel + 1, s =>
    if s.stopped then
      .ok s
    else
      match microStep cfg tokens_per_batch world_size loss s with
      | .error e => .error e
      | .ok s2 => runLoop cfg tokens_per_batch world_size loss fuel s2

/-- Embedding of the batch-consumption loop of `evaluate_model` (lines
137-159).  `target_eval_tokens` keeps its Python type (`-1` is the unbounded
sentinel); `agg_tokens` is the all-reduced token count of the first batch
(lines 142-143), which the collective sum makes identical on every process;
`batches` lists this process's remaining batch token counts.  The result is
(number of batches processed, tokens accumulated locally).  `n_eval_iters =
int(target_eval_tokens / tokens_in_batch_info[0])` (line 144) truncates toward
zero; for the non-negative budgets this embedding is stated over it equals
`target_eval_tokens.toNat / agg_tokens`, and when `target_eval_tokens = -1`
the break condition short-circuits and the value is never consulted. -/
def eval_loop (target_eval_tokens : Int) (agg_tokens : Nat) :
    Nat → List Nat → Nat × Nat
  | _, [] => (0, 0)
  | i, b :: rest =>
    if target_eval_tokens ≠ -1 ∧ target_eval_tokens.toNat / agg_tokens < i then
      (0, 0)
    else
      let r := eval_loop target_eval_tokens agg_tokens (i + 1) rest
      (r.1 + 1, r.2 + b)

/-- Embedding of the startup batch-size arithmetic (lines 358-365).  `bs` and
`ws` are `args.batch_size` and the world size; `total` and `ga` keep their
`Option` type (`None` defaults).  The final assertion always runs: comparing
an int with `None` is `False` in Python (assertion failure) and `None * int`
raises `TypeError`; both are `.error` here.  On success the final value of
`args.gradient_accumulation` is returned. -/
def startup_batch_size_check (total ga : Option Nat) (bs ws : Nat) :
    Except String Nat :=
  match total, ga with
  | some t, none =>
    if ws = 0 then
      .error "ZeroDivisionError: integer division or modulo by zero"
    else if t % ws ≠ 0 then
      .error "AssertionError: total_batch_size must be divisible by world_size"
    else if bs * ws = 0 then
      .error "ZeroDivisionError: integer division or modulo by zero"
    else
      let g := t / (bs * ws)
      if g = 0 then
        .error "AssertionError: gradient_accumulation must be greater than 0"
      else if g * bs * ws = t then
        .ok g
      else
        .error "AssertionError: gradient_accumulation * batch_size * world_size must be equal to total_batch_size"
  | some t, some g =>
    if g * bs * ws = t then
      .ok g
    else
      .error "AssertionError: gradient_accumulation * batch_size * world_size must be equal to total_batch_size"
  | none, some _ =>
    .error "AssertionError: gradient_accumulation * batch_size * world_size must be equal to total_batch_size"
  | none, none =>
    .error "TypeError: unsupported operand type(s) for *: NoneType and int"

/-- The scalar training state serialised to `training_state.json` on every
save (lines 766-773; `update_time` and `wandb_id` carry no loop-relevant
state and are omitted). -/
structure TrainingState where
  global_step : Nat
  update_step : Nat
  tokens_seen : Nat
  tokens_seen_before : Nat
  n_lora_restarts : Nat
deriving DecidableEq

/-- The contents of `optimizer.pt` (lines 223-231): the optimizer and
scheduler state dicts plus the step counters, abstracted over the state-dict
types `O` and `S`. -/
structure OptimizerCheckpoint (O S : Type) where
  optimizer_sd : O
  scheduler_sd : S
  update_step : Nat
  global_step : Nat

/-- One on-disk checkpoint: `training_state.json` plus `optimizer.pt`
(`save_model_ddp`, lines 202-238). -/
structure ModelCheckpoint (O S : Type) where
  training_state : TrainingState
  optimizer_pt : OptimizerCheckpoint O S

/-- Embedding of a checkpoint write at the current counters (lines 766-782 and
`save_model_ddp`): `training_state.json` receives the counters and
`optimizer.pt` receives the optimizer/scheduler state dicts together with the
same `update_step` and `global_step`. -/
def save_training_checkpoint {O S : Type} (ts : TrainingState)
    (opt_sd : O) (sch_sd : S) : ModelCheckpoint O S :=
  { training_state := ts,
    optimizer_pt :=
      { optimizer_sd := opt_sd, scheduler_sd := sch_sd,
        update_step := ts.update_step, global_step := ts.global_step } }

/-- Embedding of the resume path (lines 527-545 and 668-681): the counters are
first read from `training_state.json` (536-540); the freshly constructed
scheduler is stepped `update_step` times (670-671); then `optimizer.pt` is
loaded, `load_state_dict` replaces the optimizer and scheduler state with the
saved state dicts, and `update_step`/`global_step` are overwritten from
`optimizer.pt` (678-681).  `sch_init` and `schStep` model the fresh scheduler
and its `step` method; the warm-stepped scheduler is discarded by the
subsequent `load_state_dict`. -/
def resume_training {O S : Type} (c : ModelCheckpoint O S)
    (sch_init : S) (schStep : S → S) : TrainingState × O × S :=
  let json_update_step := c.training_state.update_step
  let _sch_warmed := schStep^[json_update_step] sch_init
  let opt_sd := c.optimizer_pt.optimizer_sd
  let sch_sd := c.optimizer_pt.scheduler_sd
  let ts : TrainingState :=
    { global_step := c.optimizer_pt.global_step,
      update_step := c.optimizer_pt.update_step,
      tokens_seen := c.training_state.tokens_seen,
      tokens_seen_before := c.training_state.tokens_seen_before,
      n_lora_restarts := c.training_state.n_lora_restarts }
  (ts, opt_sd, sch_sd)

/-- Checkpoint directory naming used by both save sites (lines 764 and 873):
`current_model_directory = f"{args.save_dir}/model_{update_step}"`. -/
def model_directory (save_root : String) (update_step : Nat) : String :=
  save_root ++ "/model_" ++ toString update_step

/-- The files `save_model_ddp` writes into its `save_dir` argument on rank 0:
the weights via `save_pretrained` (line 213, `pytorch_model.bin`),
`optimizer.pt` (line 231) and `training_state.json` (line 234). -/
def checkpoint_files_written (dir : String) : List String :=
  [dir ++ "/pytorch_model.bin", dir ++ "/optimizer.pt", dir ++ "/training_state.json"]

/-- Destination directory of the periodic in-loop save (lines 763-782):
`save_model(..., save_dir=current_model_directory)`. -/
def periodic_save_destination (save_root : String) (update_step : Nat) : String :=
  model_directory save_root update_step

/-- Destination of the end-of-training save (lines 873-892): the code computes
`current_model_directory = f"{args.save_dir}/model_{update_step}"`, skips the
save when that directory exists (line 874), but then calls
`save_model(..., save_dir=args.save_dir)` (line 891) — the save root itself,
not the model directory. -/
def final_save_destination (save_root : String) (update_step : Nat)
    (model_dir_exists : Bool) : Option String :=
  if model_dir_exists then none else some save_root

-- Decidable equality on `Except` results, for evaluating concrete runs.
deriving instance DecidableEq for Except

/-- The firing predicate the C1 theorems characterise the reset log by: an
update step `v` fires with `relora_interval = 100` exactly when
`v % 100 = 1` and `100 < v` — that is, `v ∈ {101, 201, 301, ...}`. -/
def resetFireB (v : Nat) : Bool :=
  decide (v % 100 = 1) && decide (100 < v)

/-- Loop invariant of a fresh run (`resume_from` unset, counters from zero)
with `relora = 100`: micro-step counters agree, `update_step` is the number of
completed accumulation windows, and the reset log is exactly the update steps
satisfying `resetFireB`. -/
def FreshInv (ga : Nat) (s : LoopState) : Prop :=
  (s.stopped = false → s.local_step = s.global_step ∧ s.update_step = s.global_step / ga)
  ∧ s.resets_at = (List.range (s.update_step + 1)).filter resetFireB
  ∧ s.n_lora_restarts = s.resets_at.length

/-- Loop invariant relating `global_step`, the ghost loss counter and
`tokens_seen`: while running they advance together, and the terminating
iteration increments `global_step` without computing a loss or counting
tokens. -/
def TokensInv (t ws : Nat) (s : LoopState) : Prop :=
  (s.stopped = false → s.losses = s.global_step ∧ s.tokens_seen = t * ws * s.global_step)
  ∧ (s.stopped = true → s.global_step = s.losses + 1 ∧ s.tokens_seen = t * ws * s.losses)

/-- The C3 scenario configuration: `num_training_steps = 10`,
`gradient_accumulation = 4`, relora disabled, fresh run. -/
def cfgC3 : ReloraConfig := ⟨10, 4, none, false⟩
theorem runLoop_succ (cfg : ReloraConfig) (t ws : Nat) (l : FVal) (n : Nat) (s : LoopState) :
    runLoop cfg t ws l (n + 1) s =
      if s.stopped then .ok s
      else
        match microStep cfg t ws l s with
        | .error e => .error e
        | .ok s2 => runLoop cfg t ws l n s2 := rfl

theorem runLoop_of_stopped (cfg : ReloraConfig) (t ws : Nat) (l : FVal) (n : Nat)
    (s : LoopState) (h : s.stopped = true) : runLoop cfg t ws l n s = .ok s := by
  cases n <;> simp [runLoop, h]

theorem runLoop_add (cfg : ReloraConfig) (t ws : Nat) (l : FVal) (a b : Nat) (s : LoopState) :
    runLoop cfg t ws l (a + b) s =
      match runLoop cfg t ws l a s with
      | .error e => .error e
      | .ok s2 => runLoop cfg t ws l b s2 := by
  induction a generalizing s with
  | zero => simp [runLoop]
  | succ a ih =>
    rw [Nat.succ_add, runLoop_succ, runLoop_succ]
    by_cases hs : s.stopped = true
    · simp [hs, runLoop_of_stopped _ _ _ _ _ _ hs]
    · simp only [Bool.not_eq_true] at hs
      simp only [hs, Bool.false_eq_true, if_false]
      cases hms : microStep cfg t ws l s with
      | error e => simp
      | ok s2 => exact ih s2

theorem runLoop_preserves (cfg : ReloraConfig) (t ws : Nat) (l : FVal)
    (P : LoopState → Prop)
    (hpres : ∀ s s2, P s → s.stopped = false → microStep cfg t ws l s = .ok s2 → P s2) :
    ∀ (n : Nat) (s s2 : LoopState), P s → runLoop cfg t ws l n s = .ok s2 → P s2 := by
  intro n
  induction n with
  | zero =>
    intro s s2 hP h
    simp only [runLoop] at h
    cases h
    exact hP
  | succ n ih =>
    intro s s2 hP h
    rw [runLoop_succ] at h
    by_cases hs : s.stopped = true
    · rw [if_pos hs] at h
      cases h
      exact hP
    · simp only [Bool.not_eq_true] at hs
      rw [hs] at h
      simp only [Bool.false_eq_true, if_false] at h
      cases hms : microStep cfg t ws l s with
      | error e => rw [hms] at h; cases h
      | ok s1 =>
        rw [hms] at h
        exact ih s1 s2 (hpres s s1 hP hs hms) h

theorem microStep_stop_eq (cfg : ReloraConfig) (t ws : Nat) (l : FVal) (s : LoopState)
    (h : cfg.num_training_steps ≤ s.update_step) :
    microStep cfg t ws l s =
      .ok { s with global_step := s.global_step + 1, local_step := s.local_step + 1,
                   stopped := true } := by
  simp [microStep, h]

theorem microStep_accum_eq (cfg : ReloraConfig) (t ws : Nat) (l : FVal) (s : LoopState)
    (h1 : ¬ cfg.num_training_steps ≤ s.update_step)
    (h2 : torch_isnan l = false)
    (h3 : (s.global_step + 1) % cfg.gradient_accumulation ≠ 0) :
    microStep cfg t ws l s =
      .ok { s with global_step := s.global_step + 1, local_step := s.local_step + 1,
                   tokens_seen := s.tokens_seen + t * ws, losses := s.losses + 1 } := by
  simp [microStep, h1, h2, h3]

theorem microStep_update_some_eq (cfg : ReloraConfig) (t ws : Nat) (l : FVal) (s : LoopState)
    (r : Nat) (hr : cfg.relora = some r)
    (h1 : ¬ cfg.num_training_steps ≤ s.update_step)
    (h2 : torch_isnan l = false)
    (h3 : (s.global_step + 1) % cfg.gradient_accumulation = 0) :
    microStep cfg t ws l s =
      .ok (if (cfg.resume_from ||
              decide (r < (s.local_step + 1) * cfg.gradient_accumulation))
              && decide ((s.update_step + 1) % r = 1) then
             { s with global_step := s.global_step + 1, local_step := s.local_step + 1,
                      update_step := s.update_step + 1,
                      tokens_seen := s.tokens_seen + t * ws,
                      tokens_seen_before := s.tokens_seen + t * ws,
                      n_lora_restarts := s.n_lora_restarts + 1,
                      losses := s.losses + 1,
                      resets_at := s.resets_at ++ [s.update_step + 1] }
           else
             { s with global_step := s.global_step + 1, local_step := s.local_step + 1,
                      update_step := s.update_step + 1,
                      tokens_seen := s.tokens_seen + t * ws,
                      tokens_seen_before := s.tokens_seen + t * ws,
                      losses := s.losses + 1 }) := by
  by_cases hcr : (cfg.resume_from ||
      decide (r < (s.local_step + 1) * cfg.gradient_accumulation)) = true
  · by_cases hfire : ((s.update_step + 1) % r = 1)
    · simp [microStep, relora_trigger, h1, h2, h3, hr, hcr, hfire]
    · simp [microStep, relora_trigger, h1, h2, h3, hr, hcr, hfire]
  · simp only [Bool.not_eq_true] at hcr
    simp [microStep, relora_trigger, h1, h2, h3, hr, hcr]

theorem microStep_nan_eq (cfg : ReloraConfig) (t ws : Nat) (l : FVal) (s : LoopState)
    (h1 : ¬ cfg.num_training_steps ≤ s.update_step)
    (h2 : torch_isnan l = true) :
    microStep cfg t ws l s = .error "AssertionError: Loss is nan" := by
  simp [microStep, h1, h2]

theorem fresh_fire_iff (ga u : Nat) (h1 : 1 ≤ ga) (h2 : ga * ga ≤ 100) (hu : 1 ≤ u) :
    (decide (100 < ga * u * ga) && decide (u % 100 = 1)) = resetFireB u := by
  unfold resetFireB
  by_cases hm : u % 100 = 1
  · have hiff : (100 < ga * u * ga) ↔ (100 < u) := by
      constructor
      · intro h
        by_contra hle
        push_neg at hle
        have hu1 : u = 1 := by omega
        subst hu1
        have hgg : ga * 1 * ga = ga * ga := by ring
        omega
      · intro h
        have hx : 1 * u * 1 ≤ ga * u * ga :=
          Nat.mul_le_mul (Nat.mul_le_mul h1 le_rfl) h1
        have hy : 1 * u * 1 = u := by ring
        omega
    rw [Bool.and_comm, decide_eq_decide.mpr hiff]
  · simp [hm]

theorem filter_range_succ_true (p : Nat → Bool) (n : Nat) (h : p n = true) :
    List.filter p (List.range (n + 1)) = List.filter p (List.range n) ++ [n] := by
  rw [List.range_succ, List.filter_append, List.filter_singleton, h]
  rfl

theorem filter_range_succ_false (p : Nat → Bool) (n : Nat) (h : p n = false) :
    List.filter p (List.range (n + 1)) = List.filter p (List.range n) := by
  rw [List.range_succ, List.filter_append, List.filter_singleton, h]
  simp

theorem microStep_fresh_inv (N ga t ws : Nat) (l : FVal)
    (h1 : 1 ≤ ga) (h2 : ga * ga ≤ 100) (s s2 : LoopState)
    (hinv : FreshInv ga s) (hstop : s.stopped = false)
    (hstep : microStep ⟨N, ga, some 100, false⟩ t ws l s = .ok s2) :
    FreshInv ga s2 := by
  obtain ⟨hcnt, hlog, hlen⟩ := hinv
  obtain ⟨hls, hus⟩ := hcnt hstop
  by_cases hterm : (⟨N, ga, some 100, false⟩ : ReloraConfig).num_training_steps ≤ s.update_step
  · rw [microStep_stop_eq _ _ _ _ _ hterm] at hstep
    cases hstep
    refine ⟨fun h => by simp at h, by simpa using hlog, by simpa using hlen⟩
  · by_cases hnan : torch_isnan l = true
    · rw [microStep_nan_eq _ _ _ _ _ hterm hnan] at hstep
      simp at hstep
    · simp only [Bool.not_eq_true] at hnan
      by_cases hacc : (s.global_step + 1) % (⟨N, ga, some 100, false⟩ : ReloraConfig).gradient_accumulation ≠ 0
      · rw [microStep_accum_eq _ _ _ _ _ hterm hnan hacc] at hstep
        cases hstep
        refine ⟨fun _ => ⟨by simp [hls], ?_⟩, by simpa using hlog, by simpa using hlen⟩
        simp only
        have hnd : ¬ ga ∣ (s.global_step + 1) := fun hd => hacc (Nat.mod_eq_zero_of_dvd hd)
        rw [Nat.succ_div, if_neg hnd, hus]
        omega
      · push_neg at hacc
        rw [microStep_update_some_eq _ _ _ _ _ 100 rfl hterm hnan hacc] at hstep
        have hdvd : ga ∣ (s.global_step + 1) := Nat.dvd_of_mod_eq_zero hacc
        have hq : (s.global_step + 1) / ga = s.update_step + 1 := by
          rw [Nat.succ_div, if_pos hdvd, hus]
        have heq : s.global_step + 1 = ga * (s.update_step + 1) :=
          Nat.eq_mul_of_div_eq_right hdvd hq
        have hcond : (((⟨N, ga, some 100, false⟩ : ReloraConfig).resume_from ||
            decide (100 < (s.local_step + 1) * (⟨N, ga, some 100, false⟩ : ReloraConfig).gradient_accumulation))
            && decide ((s.update_step + 1) % 100 = 1)) = resetFireB (s.update_step + 1) := by
          have hl1 : s.local_step + 1 = ga * (s.update_step + 1) := by omega
          have hmul : (s.local_step + 1) * ga = ga * (s.update_step + 1) * ga := by rw [hl1]
          simp only [hl1, Bool.false_or]
          exact fresh_fire_iff ga (s.update_step + 1) h1 h2 (by omega)
        rw [hcond] at hstep
        by_cases hf : resetFireB (s.update_step + 1) = true
        · rw [if_pos hf] at hstep
          cases hstep
          refine ⟨fun _ => ⟨by simp [hls], by simpa using hq.symm⟩, ?_, ?_⟩
          · simp only
            rw [filter_range_succ_true _ _ hf, hlog]
          · simp [hlen]
        · simp only [Bool.not_eq_true] at hf
          rw [hf] at hstep
          simp only [Bool.false_eq_true, if_false] at hstep
          cases hstep
          refine ⟨fun _ => ⟨by simp [hls], by simpa using hq.symm⟩, ?_, ?_⟩
          · simp only
            rw [filter_range_succ_false _ _ hf, hlog]
          · simp [hlen]

theorem microStep_update_none_error_eq (cfg : ReloraConfig) (t ws : Nat) (l : FVal)
    (s : LoopState) (hrel : cfg.relora = none) (hres : cfg.resume_from = true)
    (h1 : ¬ cfg.num_training_steps ≤ s.update_step)
    (h2 : torch_isnan l = false)
    (h3 : (s.global_step + 1) % cfg.gradient_accumulation = 0) :
    microStep cfg t ws l s =
      .error "TypeError: unsupported operand type(s) for %: int and NoneType" := by
  simp [microStep, relora_trigger, hrel, hres, h1, h2, h3]

theorem microStep_update_none_ok_eq (cfg : ReloraConfig) (t ws : Nat) (l : FVal)
    (s : LoopState) (hrel : cfg.relora = none) (hres : cfg.resume_from = false)
    (h1 : ¬ cfg.num_training_steps ≤ s.update_step)
    (h2 : torch_isnan l = false)
    (h3 : (s.global_step + 1) % cfg.gradient_accumulation = 0) :
    microStep cfg t ws l s =
      .ok { s with global_step := s.global_step + 1, local_step := s.local_step + 1,
                   update_step := s.update_step + 1,
                   tokens_seen := s.tokens_seen + t * ws,
                   tokens_seen_before := s.tokens_seen + t * ws,
                   losses := s.losses + 1 } := by
  simp [microStep, relora_trigger, hrel, hres, h1, h2, h3]

theorem microStep_ok_shape (cfg : ReloraConfig) (t ws : Nat) (l : FVal)
    (s s2 : LoopState) (hstep : microStep cfg t ws l s = .ok s2) :
    (cfg.num_training_steps ≤ s.update_step ∧
      s2 = { s with global_step := s.global_step + 1, local_step := s.local_step + 1,
                    stopped := true })
    ∨ (¬ cfg.num_training_steps ≤ s.update_step ∧
      s2.global_step = s.global_step + 1 ∧
      s2.local_step = s.local_step + 1 ∧
      s2.losses = s.losses + 1 ∧
      s2.tokens_seen = s.tokens_seen + t * ws ∧
      s2.stopped = s.stopped) := by
  by_cases hterm : cfg.num_training_steps ≤ s.update_step
  · rw [microStep_stop_eq _ _ _ _ _ hterm] at hstep
    cases hstep
    exact Or.inl ⟨hterm, rfl⟩
  · right
    refine ⟨hterm, ?_⟩
    by_cases hnan : torch_isnan l = true
    · rw [microStep_nan_eq _ _ _ _ _ hterm hnan] at hstep
      simp at hstep
    · simp only [Bool.not_eq_true] at hnan
      by_cases hacc : (s.global_step + 1) % cfg.gradient_accumulation ≠ 0
      · rw [microStep_accum_eq _ _ _ _ _ hterm hnan hacc] at hstep
        cases hstep
        simp
      · push_neg at hacc
        cases hrel : cfg.relora with
        | none =>
          cases hres : cfg.resume_from with
          | true =>
            rw [microStep_update_none_error_eq _ _ _ _ _ hrel hres hterm hnan hacc] at hstep
            simp at hstep
          | false =>
            rw [microStep_update_none_ok_eq _ _ _ _ _ hrel hres hterm hnan hacc] at hstep
            cases hstep
            simp
        | some r =>
          rw [microStep_update_some_eq _ _ _ _ _ r hrel hterm hnan hacc] at hstep
          by_cases hf : ((cfg.resume_from ||
              decide (r < (s.local_step + 1) * cfg.gradient_accumulation))
              && decide ((s.update_step + 1) % r = 1)) = true
          · rw [if_pos hf] at hstep
            cases hstep
            simp
          · rw [if_neg hf] at hstep
            cases hstep
            simp

theorem microStep_tokens_inv (cfg : ReloraConfig) (t ws : Nat) (l : FVal)
    (s s2 : LoopState) (hinv : TokensInv t ws s) (hstop : s.stopped = false)
    (hstep : microStep cfg t ws l s = .ok s2) : TokensInv t ws s2 := by
  obtain ⟨hl, htk⟩ := hinv.1 hstop
  rcases microStep_ok_shape cfg t ws l s s2 hstep with ⟨hterm, rfl⟩ | ⟨hterm, hg, hlc, hlo, htok, hst⟩
  · refine ⟨fun h => by simp at h, fun _ => ?_⟩
    constructor
    · simp [hl]
    · simp [htk, hl]
  · rw [hstop] at hst
    refine ⟨fun _ => ?_, fun h => by rw [h] at hst; cases hst⟩
    constructor
    · omega
    · rw [htok, hg, htk, Nat.mul_succ]

theorem runLoop_add_ok (cfg : ReloraConfig) (t ws : Nat) (l : FVal) (a b : Nat)
    (s s2 : LoopState) (h : runLoop cfg t ws l a s = .ok s2) :
    runLoop cfg t ws l (a + b) s = runLoop cfg t ws l b s2 := by
  rw [runLoop_add, h]

/-- Counterexample to claim C1 as stated.  C1 says that with
`relora_interval = 100` the merge-and-reset fires exactly at update steps
101, 201, 301, ... in every run.  On a fresh run with
`gradient_accumulation = 11` (so `local_step * gradient_accumulation =
11 * 11 = 121 > 100` already at the first update) the reset fires at update
step 1, which is not of the claimed form. -/
theorem relora_reset_at_step_one_cx :
    (runLoop ⟨5, 11, some 100, false⟩ 1 1 (FVal.finite 1) 11 initZero).map
        LoopState.resets_at = .ok [1] ∧
      (1 : Nat) % 100 = 1 ∧ ¬ (101 ≤ (1 : Nat)) := by
  decide

/-- Claim C1, amended.  For every fresh run (no `resume_from`, counters from
zero) with `relora_interval = 100` and a gradient-accumulation value with
`gradient_accumulation² ≤ 100` (so the guard cannot already pass at update
step 1), the reset log is exactly the update steps `u ≤ update_step` with
`u % 100 = 1` and `100 < u`, i.e. `{101, 201, 301, ...}`, and `n_lora_restarts`
equals the number of logged firings — each firing increments it by exactly 1. -/
theorem relora_reset_schedule_fresh_run (N ga t ws : Nat) (l : FVal) (n : Nat)
    (s : LoopState) (h1 : 1 ≤ ga) (h2 : ga * ga ≤ 100)
    (h : runLoop ⟨N, ga, some 100, false⟩ t ws l n initZero = .ok s) :
    s.resets_at = (List.range (s.update_step + 1)).filter resetFireB ∧
      s.n_lora_restarts = s.resets_at.length := by
  have hinv : FreshInv ga s := by
    refine runLoop_preserves _ t ws l (FreshInv ga) ?_ n initZero s ?_ h
    · intro sa sb hP hs hm
      exact microStep_fresh_inv N ga t ws l h1 h2 sa sb hP hs hm
    · refine ⟨fun _ => ⟨rfl, (Nat.zero_div ga).symm⟩, ?_, rfl⟩
      decide
  exact ⟨hinv.2.1, hinv.2.2⟩

set_option maxRecDepth 8000 in
/-- Witness for C1's amended theorem: a concrete fresh run
(`gradient_accumulation = 1`, 105 batches) in which the reset fired exactly at
update step 101. -/
theorem relora_reset_schedule_fresh_run_witness :
    ((1 : Nat) ≤ 1 ∧ 1 * 1 ≤ 100 ∧
      runLoop ⟨150, 1, some 100, false⟩ 1 1 (FVal.finite 1) 105 initZero =
        .ok ⟨105, 105, 105, 105, 105, 1, 105, false, [101]⟩) ∧
    ((⟨105, 105, 105, 105, 105, 1, 105, false, [101]⟩ : LoopState).resets_at =
        (List.range ((⟨105, 105, 105, 105, 105, 1, 105, false, [101]⟩ : LoopState).update_step + 1)).filter
          resetFireB ∧
      (⟨105, 105, 105, 105, 105, 1, 105, false, [101]⟩ : LoopState).n_lora_restarts =
        (⟨105, 105, 105, 105, 105, 1, 105, false, [101]⟩ : LoopState).resets_at.length) :=
  ⟨⟨by decide, by decide, by decide⟩,
    relora_reset_schedule_fresh_run 150 1 1 1 (FVal.finite 1) 105
      ⟨105, 105, 105, 105, 105, 1, 105, false, [101]⟩ (by decide) (by decide) (by decide)⟩

/-- Counterexample to claim C2 as stated.  C2 says that on a fresh
(non-resumed) run no reset fires before `relora_interval` micro-steps have
been performed.  With `relora_interval = 3` and `gradient_accumulation = 2`
the guard `local_step * gradient_accumulation > relora` (line 786) passes
after only 2 micro-steps (`2 * 2 = 4 > 3`), and the reset fires at update
step 1 although only `local_step = 2 < 3` micro-steps have run. -/
theorem reset_before_interval_micro_steps_cx :
    (runLoop ⟨9, 2, some 3, false⟩ 1 1 (FVal.finite 1) 2 initZero).map
        (fun s => (s.resets_at, s.local_step)) = .ok ([1], 2) ∧ (2 : Nat) < 3 := by
  decide

/-- Claim C2, amended.  Whenever a micro-step fires the reset (observable as
`n_lora_restarts` strictly increasing), either the run is resuming
(`resume_from` set) or the code's actual guard holds:
`relora_interval < local_step * gradient_accumulation`, with `local_step`
the micro-step count at the moment of the reset.  The code scales the
micro-step count by `gradient_accumulation` before comparing, so with
`gradient_accumulation > 1` this is weaker than having accumulated
`relora_interval` micro-steps. -/
theorem reset_guard_condition (cfg : ReloraConfig) (t ws : Nat) (l : FVal)
    (s s2 : LoopState) (hstep : microStep cfg t ws l s = .ok s2)
    (hfire : s.n_lora_restarts < s2.n_lora_restarts) :
    cfg.resume_from = true ∨
      ∃ r, cfg.relora = some r ∧ r < s2.local_step * cfg.gradient_accumulation := by
  by_cases hterm : cfg.num_training_steps ≤ s.update_step
  · rw [microStep_stop_eq _ _ _ _ _ hterm] at hstep
    cases hstep
    simp at hfire
  · by_cases hnan : torch_isnan l = true
    · rw [microStep_nan_eq _ _ _ _ _ hterm hnan] at hstep
      simp at hstep
    · simp only [Bool.not_eq_true] at hnan
      by_cases hacc : (s.global_step + 1) % cfg.gradient_accumulation ≠ 0
      · rw [microStep_accum_eq _ _ _ _ _ hterm hnan hacc] at hstep
        cases hstep
        simp at hfire
      · push_neg at hacc
        cases hrel : cfg.relora with
        | none =>
          cases hres : cfg.resume_from with
          | true => exact Or.inl rfl
          | false =>
            rw [microStep_update_none_ok_eq _ _ _ _ _ hrel hres hterm hnan hacc] at hstep
            cases hstep
            simp at hfire
        | some r =>
          rw [microStep_update_some_eq _ _ _ _ _ r hrel hterm hnan hacc] at hstep
          by_cases hf : ((cfg.resume_from ||
              decide (r < (s.local_step + 1) * cfg.gradient_accumulation))
              && decide ((s.update_step + 1) % r = 1)) = true
          · have hcr := ((Bool.and_eq_true _ _).mp hf).1
            rcases (Bool.or_eq_true _ _).mp hcr with hres | hlt
            · exact Or.inl hres
            · right
              refine ⟨r, rfl, ?_⟩
              rw [if_pos hf] at hstep
              cases hstep
              simpa using of_decide_eq_true hlt
          · rw [if_neg hf] at hstep
            cases hstep
            simp at hfire

/-- Witness for C2's amended theorem at a concrete firing micro-step. -/
theorem reset_guard_condition_witness :
    (microStep ⟨9, 1, some 2, false⟩ 1 1 (FVal.finite 1) ⟨2, 2, 2, 0, 0, 0, 2, false, []⟩ =
        .ok ⟨3, 3, 3, 1, 1, 1, 3, false, [3]⟩ ∧
      (⟨2, 2, 2, 0, 0, 0, 2, false, []⟩ : LoopState).n_lora_restarts <
        (⟨3, 3, 3, 1, 1, 1, 3, false, [3]⟩ : LoopState).n_lora_restarts) ∧
    ((⟨9, 1, some 2, false⟩ : ReloraConfig).resume_from = true ∨
      ∃ r, (⟨9, 1, some 2, false⟩ : ReloraConfig).relora = some r ∧
        r < (⟨3, 3, 3, 1, 1, 1, 3, false, [3]⟩ : LoopState).local_step *
          (⟨9, 1, some 2, false⟩ : ReloraConfig).gradient_accumulation) :=
  ⟨⟨by decide, by decide⟩,
    reset_guard_condition ⟨9, 1, some 2, false⟩ 1 1 (FVal.finite 1)
      ⟨2, 2, 2, 0, 0, 0, 2, false, []⟩ ⟨3, 3, 3, 1, 1, 1, 3, false, [3]⟩
      (by decide) (by decide)⟩

/-- Claim C3.  Starting from update step 0 with `num_training_steps = 10`,
`gradient_accumulation = 4` and any sufficiently long data source (41 or more
batches), the loop performs exactly 10 optimizer updates, computes a loss for
exactly 40 micro-step batches, and stops (sets `stopped` via `break`) at the
first iteration that observes `update_step >= num_training_steps`. -/
theorem training_loop_step_counts (m : Nat) :
    (runLoop cfgC3 1 1 (FVal.finite 1) (41 + m) initZero).map
        (fun s => (s.update_step, s.losses, s.stopped)) = .ok (10, 40, true) := by
  have h41 : runLoop cfgC3 1 1 (FVal.finite 1) 41 initZero =
      .ok ⟨41, 41, 10, 40, 40, 0, 40, true, []⟩ := by decide
  rw [runLoop_add_ok cfgC3 1 1 (FVal.finite 1) 41 m initZero _ h41,
    runLoop_of_stopped _ _ _ _ m _ rfl]
  rfl

/-- Counterexample to claim C4 as stated.  C4 says a non-finite (NaN or
infinite) loss aborts the process.  The code checks only `torch.isnan`
(line 748 and lines 161-163): a `+inf` loss is non-finite, yet the micro-step
completes normally and the evaluation check also passes. -/
theorem infinite_loss_not_detected_cx :
    is_finite_fval FVal.posInf = false ∧
    microStep ⟨10, 1, none, false⟩ 1 1 FVal.posInf initZero =
      .ok ⟨1, 1, 1, 1, 1, 0, 1, false, []⟩ ∧
    eval_nan_check FVal.posInf = .ok () := by
  decide

/-- Claim C4, amended.  The process aborts on a NaN loss and only then: a
NaN loss makes the micro-step fail with the line-748 assertion, while any
non-NaN loss — including `±inf` — leaves the micro-step exactly as if the loss
were finite; the evaluation-side check (lines 161-163) likewise raises exactly
on NaN. -/
theorem loss_nan_only_abort (cfg : ReloraConfig) (t ws : Nat) (l : FVal) (s : LoopState) :
    (torch_isnan l = true → s.update_step < cfg.num_training_steps →
      microStep cfg t ws l s = .error "AssertionError: Loss is nan")
    ∧ (torch_isnan l = false → microStep cfg t ws l s = microStep cfg t ws (FVal.finite 0) s)
    ∧ (eval_nan_check l = .ok () ↔ l ≠ FVal.nan) := by
  refine ⟨fun hn hu => microStep_nan_eq cfg t ws l s (Nat.not_le.mpr hu) hn, fun hn => ?_, ?_⟩
  · have h0 : torch_isnan (FVal.finite 0) = false := rfl
    simp only [microStep, hn, h0]
  · cases l <;> simp [eval_nan_check, torch_isnan]

/-- Witness for C4's amended theorem at concrete NaN and `+inf` losses. -/
theorem loss_nan_only_abort_witness :
    ((torch_isnan FVal.nan = true ∧
        initZero.update_step < (⟨10, 1, none, false⟩ : ReloraConfig).num_training_steps ∧
        microStep ⟨10, 1, none, false⟩ 1 1 FVal.nan initZero =
          .error "AssertionError: Loss is nan") ∧
      (torch_isnan FVal.posInf = false ∧
        microStep ⟨10, 1, none, false⟩ 1 1 FVal.posInf initZero =
          microStep ⟨10, 1, none, false⟩ 1 1 (FVal.finite 0) initZero)) ∧
    (eval_nan_check FVal.posInf = .ok () ↔ FVal.posInf ≠ FVal.nan) :=
  ⟨⟨⟨by decide, by decide,
      (loss_nan_only_abort ⟨10, 1, none, false⟩ 1 1 FVal.nan initZero).1 (by decide) (by decide)⟩,
    ⟨by decide,
      (loss_nan_only_abort ⟨10, 1, none, false⟩ 1 1 FVal.posInf initZero).2.1 (by decide)⟩⟩,
    (loss_nan_only_abort ⟨10, 1, none, false⟩ 1 1 FVal.posInf initZero).2.2⟩

/-- Claim C5.  Every configuration that passes the startup checks of lines
358-365 satisfies `gradient_accumulation * batch_size * world_size =
total_batch_size` exactly — the returned (possibly derived) accumulation value
`g` times `bs * ws` reproduces the configured total; every other configuration
makes startup fail with an assertion or exception before training begins. -/
theorem startup_total_batch_size_eq (total ga : Option Nat) (bs ws g : Nat)
    (h : startup_batch_size_check total ga bs ws = .ok g) :
    total = some (g * bs * ws) := by
  rcases total with _ | t
  · rcases ga with _ | g0 <;> simp [startup_batch_size_check] at h
  · rcases ga with _ | g0
    · simp only [startup_batch_size_check] at h
      split at h
      · simp at h
      · split at h
        · simp at h
        · split at h
          · simp at h
          · split at h
            · simp at h
            · split at h
              · rename_i hcond
                cases h
                rw [hcond]
              · simp at h
    · simp only [startup_batch_size_check] at h
      split at h
      · rename_i hcond
        cases h
        rw [hcond]
      · simp at h

/-- Witness for C5: `total_batch_size = 24`, `batch_size = 3`, world size 2
derives `gradient_accumulation = 4` with `4 * 3 * 2 = 24`. -/
theorem startup_total_batch_size_eq_witness :
    (startup_batch_size_check (some 24) none 3 2 = .ok 4) ∧
    (some 24 : Option Nat) = some (4 * 3 * 2) :=
  ⟨by decide, startup_total_batch_size_eq (some 24) none 3 2 4 (by decide)⟩

theorem eval_loop_closed (target : Int) (agg : Nat) (hne : target ≠ -1) :
    ∀ (data : List Nat) (i : Nat),
      (eval_loop target agg i data).1 = min data.length (target.toNat / agg + 1 - i) := by
  intro data
  induction data with
  | nil => intro i; simp [eval_loop]
  | cons b rest ih =>
    intro i
    by_cases hbr : target.toNat / agg < i
    · simp only [eval_loop]
      rw [if_pos ⟨hne, hbr⟩]
      simp only [List.length_cons]
      omega
    · simp only [eval_loop]
      rw [if_neg (by tauto)]
      simp only [List.length_cons]
      rw [ih (i + 1)]
      omega

theorem eval_loop_unbounded (agg : Nat) :
    ∀ (data : List Nat) (i : Nat), (eval_loop (-1) agg i data).1 = data.length := by
  intro data
  induction data with
  | nil => intro i; simp [eval_loop]
  | cons b rest ih =>
    intro i
    simp only [eval_loop]
    rw [if_neg (by simp)]
    simp [ih]

/-- Counterexample to claim C6 as stated.  C6 says the number of batch
iterations executed equals `target_token_budget / aggregate_tokens_per_batch`.
The loop breaks only when `i > n_eval_iters` (line 146), so with a budget of
10 tokens and 5 aggregated tokens per batch it processes batches
`i = 0, 1, 2` — that is `n_eval_iters + 1 = 3` batches, not `10 / 5 = 2`. -/
theorem eval_iter_count_cx :
    (eval_loop 10 5 0 [5, 5, 5, 5]).1 = 3 ∧ ((10 : Int).toNat / 5 = 2) ∧ (3 : Nat) ≠ 2 := by
  decide

/-- Claim C6, amended.  For a finite non-negative token budget the number of
batches a process consumes is `target / agg + 1` (capped by its data length),
where `agg` is the all-reduced first-batch token count — a function of the
budget, the aggregate, and the data length only, hence identical on every
process with enough data; the sentinel budget `-1` disables the cap and the
entire data source is consumed. -/
theorem eval_iteration_schedule (target : Int) (agg : Nat) (data : List Nat) :
    (0 ≤ target → 0 < agg →
      (eval_loop target agg 0 data).1 = min data.length (target.toNat / agg + 1))
    ∧ (eval_loop (-1) agg 0 data).1 = data.length := by
  constructor
  · intro h0 _
    have hne : target ≠ -1 := by omega
    rw [eval_loop_closed target agg hne data 0, Nat.sub_zero]
  · exact eval_loop_unbounded agg data 0

/-- Witness for C6's amended theorem: budget 10, aggregate 5, four batches:
3 batches consumed; with budget `-1` all 4 are consumed. -/
theorem eval_iteration_schedule_witness :
    ((0 : Int) ≤ 10 ∧ (0 : Nat) < 5 ∧
      (eval_loop 10 5 0 [5, 5, 5, 5]).1 =
        min ([5, 5, 5, 5] : List Nat).length ((10 : Int).toNat / 5 + 1)) ∧
    (eval_loop (-1) 5 0 [5, 5, 5, 5]).1 = ([5, 5, 5, 5] : List Nat).length :=
  ⟨⟨by decide, by decide,
      (eval_iteration_schedule 10 5 [5, 5, 5, 5]).1 (by decide) (by decide)⟩,
    (eval_iteration_schedule 10 5 [5, 5, 5, 5]).2⟩

/-- Claim C7.  Resuming from a checkpoint written at `update_step = S`
restores `update_step = S` together with `global_step`, `tokens_seen`,
`tokens_seen_before` and `n_lora_restarts` to their saved values, and the
optimizer and scheduler state dicts to exactly the saved state — the
warm-stepping of the fresh scheduler (lines 670-671) is overwritten by
`load_state_dict`, and the counters read from `training_state.json` agree
with the ones `optimizer.pt` overrides them with (lines 678-681). -/
theorem checkpoint_resume_roundtrip {O S : Type} (ts : TrainingState) (opt_sd : O)
    (sch_sd : S) (sch_init : S) (schStep : S → S) :
    resume_training (save_training_checkpoint ts opt_sd sch_sd) sch_init schStep =
      (ts, opt_sd, sch_sd) := by
  cases ts
  rfl

/-- Claim C8 evaluation at a failing input.  The periodic save does write
into `{save_root}/model_{update_step}` and that directory receives both the
weights file and the training-state file, but the end-of-training save
(lines 873-892) computes `current_model_directory`, checks its existence, and
then passes `save_dir=args.save_dir` (line 891): the final checkpoint lands in
the save root itself, not in `{save_root}/model_{update_step}`, contradicting
the claim and the code's own log message at line 875. -/
theorem final_checkpoint_directory_bug :
    final_save_destination "checkpoints" 10 false = some "checkpoints" ∧
    model_directory "checkpoints" 10 = "checkpoints/model_10" ∧
    final_save_destination "checkpoints" 10 false ≠ some (model_directory "checkpoints" 10) ∧
    periodic_save_destination "checkpoints" 10 = model_directory "checkpoints" 10 ∧
    "checkpoints/model_10" ++ "/pytorch_model.bin" ∈
      checkpoint_files_written (model_directory "checkpoints" 10) ∧
    "checkpoints/model_10" ++ "/training_state.json" ∈
      checkpoint_files_written (model_directory "checkpoints" 10) := by
  decide

/-- Claim C9.  When the run resumes (`resume_from` set) while relora is
disabled (`args.relora` is `None`), `can_reset` is true by its first disjunct,
so every micro-step that completes an update evaluates
`update_step % args.relora` with a `None` divisor and raises `TypeError`;
in particular the first update step of the resumed run raises instead of
training. -/
theorem resume_without_relora_raises (cfg : ReloraConfig) (t ws : Nat) (l : FVal)
    (s : LoopState) (hres : cfg.resume_from = true) (hrel : cfg.relora = none)
    (hnan : torch_isnan l = false)
    (hterm : s.update_step < cfg.num_training_steps)
    (hb : (s.global_step + 1) % cfg.gradient_accumulation = 0) :
    microStep cfg t ws l s =
      .error "TypeError: unsupported operand type(s) for %: int and NoneType" :=
  microStep_update_none_error_eq cfg t ws l s hrel hres (Nat.not_le.mpr hterm) hnan hb

/-- Witness for C9 at a concrete resumed state reaching an update boundary. -/
theorem resume_without_relora_raises_witness :
    ((⟨10, 2, none, true⟩ : ReloraConfig).resume_from = true ∧
      (⟨10, 2, none, true⟩ : ReloraConfig).relora = none ∧
      torch_isnan (FVal.finite 0) = false ∧
      (⟨5, 1, 3, 7, 7, 0, 5, false, []⟩ : LoopState).update_step <
        (⟨10, 2, none, true⟩ : ReloraConfig).num_training_steps ∧
      ((⟨5, 1, 3, 7, 7, 0, 5, false, []⟩ : LoopState).global_step + 1) %
        (⟨10, 2, none, true⟩ : ReloraConfig).gradient_accumulation = 0) ∧
    microStep ⟨10, 2, none, true⟩ 1 1 (FVal.finite 0) ⟨5, 1, 3, 7, 7, 0, 5, false, []⟩ =
      .error "TypeError: unsupported operand type(s) for %: int and NoneType" :=
  ⟨⟨rfl, rfl, rfl, by decide, by decide⟩,
    resume_without_relora_raises ⟨10, 2, none, true⟩ 1 1 (FVal.finite 0)
      ⟨5, 1, 3, 7, 7, 0, 5, false, []⟩ rfl rfl rfl (by decide) (by decide)⟩

/-- Claim C10.  When training terminates normally (the `break` at lines
732-735 fires, i.e. `stopped = true`), `global_step` was incremented once more
by the terminating iteration, so the `global_step` recorded by the final
checkpoint equals the number of micro-steps whose loss was computed plus one,
and `tokens_seen` was not incremented for that extra batch: it equals
tokens-per-batch times world size times the loss count. -/
theorem final_global_step_off_by_one (cfg : ReloraConfig) (t ws : Nat) (l : FVal)
    (n : Nat) (s : LoopState)
    (h : runLoop cfg t ws l n initZero = .ok s) (hstopped : s.stopped = true) :
    s.global_step = s.losses + 1 ∧ s.tokens_seen = t * ws * s.losses := by
  have hinv : TokensInv t ws s := by
    refine runLoop_preserves cfg t ws l (TokensInv t ws) ?_ n initZero s ?_ h
    · intro sa sb hP hs hm
      exact microStep_tokens_inv cfg t ws l sa sb hP hs hm
    · exact ⟨fun _ => ⟨rfl, rfl⟩, fun hc => absurd hc (by decide)⟩
  exact hinv.2 hstopped

/-- Witness for C10: a 2-update run over 3-token batches terminates with
`global_step = 3 = 2 + 1` losses and `tokens_seen = 6 = 3 * 1 * 2`. -/
theorem final_global_step_off_by_one_witness :
    (runLoop ⟨2, 1, none, false⟩ 3 1 (FVal.finite 1) 5 initZero =
        .ok ⟨3, 3, 2, 6, 6, 0, 2, true, []⟩ ∧
      (⟨3, 3, 2, 6, 6, 0, 2, true, []⟩ : LoopState).stopped = true) ∧
    ((⟨3, 3, 2, 6, 6, 0, 2, true, []⟩ : LoopState).global_step =
        (⟨3, 3, 2, 6, 6, 0, 2, true, []⟩ : LoopState).losses + 1 ∧
      (⟨3, 3, 2, 6, 6, 0, 2, true, []⟩ : LoopState).tokens_seen =
        3 * 1 * (⟨3, 3, 2, 6, 6, 0, 2, true, []⟩ : LoopState).losses) :=
  ⟨⟨by decide, rfl⟩,
    final_global_step_off_by_one ⟨2, 1, none, false⟩ 3 1 (FVal.finite 1) 5
      ⟨3, 3, 2, 6, 6, 0, 2, true, []⟩ (by decide) rfl⟩
